import Mathlib

/-!
# Verification of the classroom-management application core

A shallow embedding of the data-access and authorization logic of the
classroom web application (`src/app.py`).  Stateful route handlers are
modelled as pure functions that take the loaded store (and the
session-derived identity) and return the saved store together with an
explicit result value.  Randomness (the join-code digits) and uuid
generation are modelled as explicit inputs.
-/

/-- One submission record: `{"student": user["name"], "text": ...}`.
The student field is the session name, which may be absent (`None`). -/
structure Submission where
  student : Option String
  text : String
deriving Repr, DecidableEq

/-- One assignment: `{"title": ..., "desc": ..., "submissions": [...]}`. -/
structure Assignment where
  title : String
  desc : String
  submissions : List Submission
deriving Repr, DecidableEq

/-- One announcement: `{"text": ...}`. -/
structure Announcement where
  text : String
deriving Repr, DecidableEq

/-- One lesson: `{"title": ..., "body": ...}`. -/
structure Lesson where
  title : String
  body : String
deriving Repr, DecidableEq

/-- A classroom record as stored in `db["classrooms"]` (app.py lines 99-108). -/
structure Classroom where
  id : String
  name : String
  teacher_name : String
  visibility : String
  code : String
  announcements : List Announcement
  lessons : List Lesson
  assignments : List Assignment
deriving Repr, DecidableEq

/-- The persisted store `db["classrooms"]`: a dict from classroom id to
classroom, modelled as an association list in insertion order (Python dicts
iterate in insertion order). -/
def Store := List (String × Classroom)
deriving Repr, DecidableEq

/-- The session-derived actor (`current_user`, app.py lines 39-44):
`name` and `role` are `session.get` results and may be absent;
`joined` is `session.get("joined_classrooms", [])`. -/
structure Identity where
  name : Option String
  role : Option String
  joined : List String
deriving Repr, DecidableEq

/-- `db["classrooms"].get(class_id)`: dict lookup by key. -/
def store_get : Store → String → Option Classroom
  | [], _ => none
  | (k, v) :: rest, cid => if k == cid then some v else store_get rest cid

/-- `db["classrooms"][cid] = c`: dict assignment (replace if the key is
present, else append, keeping insertion order). -/
def store_put : Store → String → Classroom → Store
  | [], cid, c => [(cid, c)]
  | (k, v) :: rest, cid, c =>
    if k == cid then (cid, c) :: rest else (k, v) :: store_put rest cid c

/-- `generate_code` (app.py lines 32-33): six independently drawn decimal
digits, each `random.randint(0, 9)`, rendered with `str` and concatenated
with `"".join`.  The random draws are the explicit input `draw`. -/
def generate_code (draw : Fin 6 → Fin 10) : String :=
  toString (draw 0).val ++ toString (draw 1).val ++ toString (draw 2).val
    ++ toString (draw 3).val ++ toString (draw 4).val ++ toString (draw 5).val

/-- A character in the class `[0-9]`. -/
def isDigitChar (c : Char) : Bool := 48 ≤ c.toNat && c.toNat ≤ 57

/-- The regular expression `^[0-9]\x7b6\x7d$`: exactly six decimal digits. -/
def isSixDigitCode (s : String) : Bool :=
  s.data.length == 6 && s.data.all isDigitChar

/-- Python truthiness of `user["name"]` (`not user["name"]` is true for
`None` and for the empty string). -/
def truthyName : Option String → Bool
  | none => false
  | some s => !(s == "")

/-- `user["role"] == "Teacher" and user["name"] == classroom["teacher_name"]`:
the ownership test used throughout the handlers. -/
def isOwningTeacher (u : Identity) (c : Classroom) : Bool :=
  u.role == some "Teacher" && u.name == some c.teacher_name

/-- `create_classroom` (app.py lines 89-113).  The uuid `cid` and the six
random digits `draw` are explicit inputs; `cname` and `visibility` are the
form fields after the route's defaulting and stripping.  Returns the saved
store and the created classroom (`none` when the teacher guard rejects). -/
def create_classroom (u : Identity) (db : Store) (cname : String)
    (visibility : String) (cid : String) (draw : Fin 6 → Fin 10) :
    Store × Option Classroom :=
  if u.role == some "Teacher" && truthyName u.name then
    let code := if visibility == "Private" then generate_code draw else ""
    let c : Classroom :=
      { id := cid
        name := cname
        teacher_name := u.name.getD ""
        visibility := if visibility != "Public" then "Private" else "Public"
        code := code
        announcements := []
        lessons := []
        assignments := [] }
    (store_put db cid c, some c)
  else
    (db, none)

/-- The private-classroom access gate of `classroom_page` (app.py lines
131-142): a private classroom may be viewed by its owning teacher or by an
identity whose session joined-list contains the url's classroom id; any
other visibility value passes the gate. -/
def viewAllowed (u : Identity) (cid : String) (c : Classroom) : Bool :=
  if c.visibility == "Private" then
    isOwningTeacher u c || u.joined.contains cid
  else
    true

/-- Outcome of a GET on `classroom_page`. -/
inductive ViewResult where
  | shown (c : Classroom)
  | notFound
  | denied
deriving Repr, DecidableEq

/-- The GET branch of `classroom_page` (app.py lines 121-143, 193): look the
classroom up, apply the private-visibility gate, and either render it or
flash a warning and redirect to the landing page.  The store is never
saved on this path. -/
def classroom_page_view (u : Identity) (db : Store) (cid : String) :
    Store × ViewResult :=
  match store_get db cid with
  | none => (db, ViewResult.notFound)
  | some c =>
    if viewAllowed u cid c then (db, ViewResult.shown c)
    else (db, ViewResult.denied)

/-- Outcome of the `post_announcement` action. -/
inductive AnnounceResult where
  | ok
  | deniedView
  | notOwner
  | emptyText
  | notFound
deriving Repr, DecidableEq

/-- The `action == "post_announcement"` branch of `classroom_page` (app.py
lines 121-157): the view gate runs first; then only the owning teacher may
post, and an empty (post-strip) text is silently dropped without saving. -/
def post_announcement (u : Identity) (db : Store) (cid : String)
    (text : String) : Store × AnnounceResult :=
  match store_get db cid with
  | none => (db, AnnounceResult.notFound)
  | some c =>
    if !viewAllowed u cid c then
      (db, AnnounceResult.deniedView)
    else if isOwningTeacher u c then
      if text == "" then
        (db, AnnounceResult.emptyText)
      else
        (store_put db cid
          { c with announcements := { text := text } :: c.announcements },
         AnnounceResult.ok)
    else
      (db, AnnounceResult.notOwner)

/-- `classroom["assignments"][i]["submissions"].append(s)`: rebuild the
assignment list with submission `s` appended at position `i`. -/
def appendSubmissionAt : List Assignment → Nat → Submission → List Assignment
  | [], _, _ => []
  | a :: rest, 0, s => { a with submissions := a.submissions ++ [s] } :: rest
  | a :: rest, i + 1, s => a :: appendSubmissionAt rest i s

/-- Outcome of the `submit_assignment` action. -/
inductive SubmitResult where
  | ok
  | invalidIndex
  | forbidden
  | deniedView
  | notFound
deriving Repr, DecidableEq

/-- `classroom["visibility"] == "Private" and (class_id in user["joined"] or
(user["role"] == "Teacher" and user["name"] == classroom["teacher_name"]))`:
the submission permission test (app.py line 178). -/
def submitPermitted (u : Identity) (cid : String) (c : Classroom) : Bool :=
  c.visibility == "Private"
    && (u.joined.contains cid || isOwningTeacher u c)

/-- The `action == "submit_assignment"` branch of `classroom_page` (app.py
lines 121-142 and 176-188): the view gate runs first; the submission is
accepted only into a private classroom by a joined or owning identity, the
index must satisfy `0 <= idx < len(assignments)`, and an accepted submission
records `user["name"]` as the student.  `idx` is the parsed integer form
field (`int(request.form.get("assignment_idx", -1))`). -/
def submit_assignment (u : Identity) (db : Store) (cid : String)
    (idx : Int) (text : String) : Store × SubmitResult :=
  match store_get db cid with
  | none => (db, SubmitResult.notFound)
  | some c =>
    if !viewAllowed u cid c then
      (db, SubmitResult.deniedView)
    else if submitPermitted u cid c then
      if 0 ≤ idx ∧ idx < (c.assignments.length : Int) then
        let s : Submission := { student := u.name, text := text }
        let c2 : Classroom :=
          { c with assignments := appendSubmissionAt c.assignments idx.toNat s }
        (store_put db cid c2, SubmitResult.ok)
      else
        (db, SubmitResult.invalidIndex)
    else
      (db, SubmitResult.forbidden)

/-- The scan of `join_classroom` (app.py lines 200-204): first classroom in
store order whose visibility is `"Private"` and whose stored code equals the
submitted code. -/
def findByCode : Store → String → Option Classroom
  | [], _ => none
  | (_, c) :: rest, code =>
    if c.visibility == "Private" && c.code == code then some c
    else findByCode rest code

/-- Outcome of `join_classroom`. -/
inductive JoinResult where
  | joined (c : Classroom)
  | notFound
deriving Repr, DecidableEq

/-- `join_classroom` (app.py lines 195-214): resolve the code by a linear
scan; on a match append the found classroom's id to the session joined-list
unless already present; on no match flash an error and leave the session
unchanged.  The store itself is never modified. -/
def join_classroom (u : Identity) (db : Store) (code : String) :
    Identity × JoinResult :=
  match findByCode db code with
  | none => (u, JoinResult.notFound)
  | some c =>
    if u.joined.contains c.id then (u, JoinResult.joined c)
    else ({ u with joined := u.joined ++ [c.id] }, JoinResult.joined c)

/-- The JSON projection of a classroom: a classroom record whose `code`
entry may have been popped. -/
structure ClassroomInfo where
  id : String
  name : String
  teacher_name : String
  visibility : String
  code : Option String
  announcements : List Announcement
  lessons : List Lesson
  assignments : List Assignment
deriving Repr, DecidableEq

/-- The projection built by `classroom_info_json` (app.py lines 216-227):
`info = dict(classroom)` followed by `info.pop("code", None)` unless the
requester is the owning teacher. -/
def classroom_info (u : Identity) (c : Classroom) : ClassroomInfo :=
  { id := c.id
    name := c.name
    teacher_name := c.teacher_name
    visibility := c.visibility
    code := if isOwningTeacher u c then some c.code else none
    announcements := c.announcements
    lessons := c.lessons
    assignments := c.assignments }

/-! ## Concrete sample data used by witnesses and counterexamples -/

/-- A logged-in teacher session. -/
def teacherAva : Identity :=
  { name := some "Ava", role := some "Teacher", joined := [] }

/-- A logged-in student session that has joined nothing. -/
def studentBen : Identity :=
  { name := some "Ben", role := some "Student", joined := [] }

/-- Another student session that never joined anything. -/
def studentCid : Identity :=
  { name := some "Cid", role := some "Student", joined := [] }

/-- Ben's session after joining classroom `cid1`. -/
def benJoined : Identity :=
  { name := some "Ben", role := some "Student", joined := ["cid1"] }

/-- A session with absent name and role that joined classroom `cid1`. -/
def anonJoined : Identity :=
  { name := none, role := none, joined := ["cid1"] }

/-- A private classroom owned by Ava with one assignment. -/
def roomAlgebra : Classroom :=
  { id := "cid1"
    name := "Algebra"
    teacher_name := "Ava"
    visibility := "Private"
    code := "123456"
    announcements := []
    lessons := []
    assignments := [{ title := "HW1", desc := "d", submissions := [] }] }

/-- A store holding only `roomAlgebra` under its id. -/
def dbOne : Store := [("cid1", roomAlgebra)]

/-- A fixed sequence of six random digit draws. -/
def drawA : Fin 6 → Fin 10 := fun i => ⟨i.val + 1, by omega⟩

/-- The classroom produced by `create_classroom` for Ava with visibility
input exactly `"Private"` under the draws `drawA`. -/
def roomPriv : Classroom :=
  { id := "cid1"
    name := "Algebra"
    teacher_name := "Ava"
    visibility := "Private"
    code := "123456"
    announcements := []
    lessons := []
    assignments := [] }

/-- The classroom produced by `create_classroom` for Ava with the
lower-case visibility input `"private"`. -/
def roomLowerX : Classroom :=
  { id := "cidX"
    name := "Algebra"
    teacher_name := "Ava"
    visibility := "Private"
    code := ""
    announcements := []
    lessons := []
    assignments := [] }

/-! ## Helper lemmas -/

/-- Writing a key and reading it back yields the written classroom. -/
theorem store_get_put (db : Store) (cid : String) (c : Classroom) :
    store_get (store_put db cid c) cid = some c := by
  induction db with
  | nil => simp [store_put, store_get]
  | cons kv rest ih =>
    obtain ⟨k, v⟩ := kv
    by_cases h : (k == cid) = true
    · simp [store_put, store_get, h]
    · simp [store_put, store_get, h, ih]

/-- Appending a submission at index `i` rewrites exactly the `i`-th
assignment, appending the submission at the end of its list. -/
theorem appendSubmissionAt_get (l : List Assignment) (i : Nat) (s : Submission) :
    (appendSubmissionAt l i s)[i]? =
      (l[i]?).map
        (fun a => { a with submissions := a.submissions ++ [s] }) := by
  induction l generalizing i with
  | nil => simp [appendSubmissionAt]
  | cons a rest ih =>
    cases i with
    | zero => simp [appendSubmissionAt]
    | succ n => simpa [appendSubmissionAt] using ih n

/-- `str(d)` of a single decimal digit is one character in `[0-9]`. -/
theorem digit_toString_spec :
    ∀ d : Fin 10, (toString d.val).data.length = 1
      ∧ (toString d.val).data.all isDigitChar = true := by
  decide

/-- Every string returned by `generate_code` is exactly six decimal
digits, whatever the random draws were. -/
theorem generate_code_six (draw : Fin 6 → Fin 10) :
    isSixDigitCode (generate_code draw) = true := by
  have h0 := digit_toString_spec (draw 0)
  have h1 := digit_toString_spec (draw 1)
  have h2 := digit_toString_spec (draw 2)
  have h3 := digit_toString_spec (draw 3)
  have h4 := digit_toString_spec (draw 4)
  have h5 := digit_toString_spec (draw 5)
  simp [isSixDigitCode, generate_code, String.data_append, List.all_append,
    h0.1, h0.2, h1.1, h1.2, h2.1, h2.2, h3.1, h3.2, h4.1, h4.2, h5.1, h5.2]

/-- Unfolding the ownership test into a proposition. -/
theorem isOwningTeacher_iff (u : Identity) (c : Classroom) :
    isOwningTeacher u c = true ↔
      (u.role = some "Teacher" ∧ u.name = some c.teacher_name) := by
  simp [isOwningTeacher]

/-- Unfolding the view gate into a proposition, assuming the stored
visibility is one of the two legal values. -/
theorem viewAllowed_iff (u : Identity) (cid : String) (c : Classroom)
    (hvis : c.visibility = "Public" ∨ c.visibility = "Private") :
    viewAllowed u cid c = true ↔
      (c.visibility = "Public"
        ∨ (u.role = some "Teacher" ∧ u.name = some c.teacher_name)
        ∨ cid ∈ u.joined) := by
  rcases hvis with h | h <;>
    simp [viewAllowed, isOwningTeacher, h]

/-- Unfolding the submission permission test into a proposition. -/
theorem submitPermitted_iff (u : Identity) (cid : String) (c : Classroom) :
    submitPermitted u cid c = true ↔
      (c.visibility = "Private"
        ∧ (cid ∈ u.joined
          ∨ (u.role = some "Teacher" ∧ u.name = some c.teacher_name))) := by
  simp [submitPermitted, isOwningTeacher]

/-- An identity permitted to submit always passes the view gate. -/
theorem submitPermitted_viewAllowed (u : Identity) (cid : String)
    (c : Classroom) (h : submitPermitted u cid c = true) :
    viewAllowed u cid c = true := by
  rw [submitPermitted_iff] at h
  simp [viewAllowed, isOwningTeacher, h.1]
  rcases h.2 with hj | ho
  · exact Or.inr hj
  · exact Or.inl ho

/-! ## Claim theorems -/

/-- C1 (amended): every classroom produced by `create_classroom` has
visibility `Public` or `Private`, and `Public` implies an empty code; when
the visibility input is exactly `"Public"` or exactly `"Private"`,
`Private` moreover implies a code matching six decimal digits. -/
theorem create_classroom_code_invariant
    (u : Identity) (db : Store) (cname visibility cid : String)
    (draw : Fin 6 → Fin 10) (c : Classroom)
    (hc : (create_classroom u db cname visibility cid draw).2 = some c) :
    (c.visibility = "Public" ∨ c.visibility = "Private")
    ∧ (c.visibility = "Public" → c.code = "")
    ∧ ((visibility = "Public" ∨ visibility = "Private") →
        c.visibility = "Private" → isSixDigitCode c.code = true) := by
  unfold create_classroom at hc
  by_cases hg : (u.role == some "Teacher" && truthyName u.name) = true
  · rw [if_pos hg] at hc
    injection hc with hc
    subst hc
    by_cases hp : visibility = "Public"
    · simp [hp]
    · by_cases hpr : visibility = "Private"
      · simp [hpr, generate_code_six]
      · refine ⟨Or.inr (by simp [hp]), ?_, ?_⟩
        · intro habs
          simp [hp] at habs
        · intro hin
          rcases hin with h | h <;> exact absurd h (by assumption)
  · rw [if_neg hg] at hc
    exact absurd hc (by simp)

/-- C1 counterexample: with the lower-case visibility input `"private"`,
`create_classroom` stores a classroom whose visibility is `"Private"` but
whose code is the empty string, not six digits. -/
theorem create_classroom_lowercase_private_violates
    : (create_classroom teacherAva [] "Algebra" "private" "cidX"
        (fun _ => 0)).2 = some roomLowerX
      ∧ roomLowerX.visibility = "Private"
      ∧ isSixDigitCode roomLowerX.code = false := by decide

/-- C1 witness: a concrete creation with visibility input `"Private"`
satisfies the invariant, with code `"123456"`. -/
theorem create_classroom_code_invariant_witness
    : (roomPriv.visibility = "Public" ∨ roomPriv.visibility = "Private")
      ∧ (roomPriv.visibility = "Public" → roomPriv.code = "")
      ∧ ((("Private" : String) = "Public" ∨ ("Private" : String) = "Private") →
          roomPriv.visibility = "Private" → isSixDigitCode roomPriv.code = true) :=
  create_classroom_code_invariant teacherAva [] "Algebra" "Private" "cid1"
    drawA roomPriv (by decide)

/-- C9: a `create_classroom` call whose visibility input is neither exactly
`"Public"` nor exactly `"Private"` stores a classroom with visibility
`"Private"` and an empty code. -/
theorem create_classroom_nonexact_input
    (u : Identity) (db : Store) (cname visibility cid : String)
    (draw : Fin 6 → Fin 10) (c : Classroom)
    (hvis1 : visibility ≠ "Public") (hvis2 : visibility ≠ "Private")
    (hc : (create_classroom u db cname visibility cid draw).2 = some c) :
    c.visibility = "Private" ∧ c.code = "" := by
  unfold create_classroom at hc
  by_cases hg : (u.role == some "Teacher" && truthyName u.name) = true
  · rw [if_pos hg] at hc
    injection hc with hc
    subst hc
    constructor
    · simp [hvis1]
    · simp [hvis2]
  · rw [if_neg hg] at hc
    exact absurd hc (by simp)

/-- C9 witness: the lower-case input `"private"` yields a stored
visibility of `"Private"` with an empty code. -/
theorem create_classroom_nonexact_input_witness
    : roomLowerX.visibility = "Private" ∧ roomLowerX.code = "" :=
  create_classroom_nonexact_input teacherAva [] "Algebra" "private" "cidX"
    (fun _ => 0) roomLowerX (by decide) (by decide) (by decide)


/-- C2: a classroom view is granted exactly when the classroom is public,
or the requester is its owning teacher, or its id is in the requester's
joined set; otherwise the requester is redirected (denied), and the store
is returned unchanged in every case. -/
theorem classroom_view_iff
    (u : Identity) (db : Store) (cid : String) (c : Classroom)
    (hc : store_get db cid = some c) (hid : c.id = cid)
    (hvis : c.visibility = "Public" ∨ c.visibility = "Private") :
    ((classroom_page_view u db cid).2 = ViewResult.shown c ↔
      (c.visibility = "Public"
        ∨ (u.role = some "Teacher" ∧ u.name = some c.teacher_name)
        ∨ c.id ∈ u.joined))
    ∧ (¬ (c.visibility = "Public"
        ∨ (u.role = some "Teacher" ∧ u.name = some c.teacher_name)
        ∨ c.id ∈ u.joined) →
        (classroom_page_view u db cid).2 = ViewResult.denied)
    ∧ (classroom_page_view u db cid).1 = db := by
  subst hid
  simp only [classroom_page_view, hc]
  by_cases hv : viewAllowed u c.id c = true
  · rw [if_pos hv]
    refine ⟨?_, ?_, rfl⟩
    · simp [(viewAllowed_iff u c.id c hvis).mp hv]
    · intro hno
      exact absurd ((viewAllowed_iff u c.id c hvis).mp hv) hno
  · rw [if_neg hv]
    refine ⟨?_, fun _ => rfl, rfl⟩
    constructor
    · intro habs
      exact absurd habs (by simp)
    · intro hyes
      exact absurd ((viewAllowed_iff u c.id c hvis).mpr hyes) hv

/-- C2 witness: the never-joined student Cid is denied the private
classroom. -/
theorem classroom_view_iff_witness
    : (classroom_page_view studentCid dbOne "cid1").2 = ViewResult.denied :=
  (classroom_view_iff studentCid dbOne "cid1" roomAlgebra (by decide)
    (by decide) (by decide)).2.1 (by decide)

/-- C3: a submission attempt gets past authorization (reaching either the
append or the index validation) exactly when the classroom is private and
the requester has joined it or owns it; otherwise the store is unchanged. -/
theorem submit_permitted_iff
    (u : Identity) (db : Store) (cid : String) (c : Classroom)
    (idx : Int) (t : String)
    (hc : store_get db cid = some c) (hid : c.id = cid) :
    (((submit_assignment u db cid idx t).2 = SubmitResult.ok
      ∨ (submit_assignment u db cid idx t).2 = SubmitResult.invalidIndex) ↔
      (c.visibility = "Private"
        ∧ (c.id ∈ u.joined
          ∨ (u.role = some "Teacher" ∧ u.name = some c.teacher_name))))
    ∧ (¬ (c.visibility = "Private"
        ∧ (c.id ∈ u.joined
          ∨ (u.role = some "Teacher" ∧ u.name = some c.teacher_name))) →
        (submit_assignment u db cid idx t).1 = db) := by
  subst hid
  simp only [submit_assignment, hc]
  by_cases hp : submitPermitted u c.id c = true
  · have hv := submitPermitted_viewAllowed u c.id c hp
    rw [submitPermitted_iff] at hp
    simp only [hv, Bool.not_true, if_neg (by simp : ¬ (false = true))]
    rw [if_pos (by rw [submitPermitted_iff]; exact hp)]
    by_cases hi : 0 ≤ idx ∧ idx < (c.assignments.length : Int)
    · rw [if_pos hi]
      exact ⟨by simp [hp], fun hno => absurd hp hno⟩
    · rw [if_neg hi]
      exact ⟨by simp [hp], fun hno => absurd hp hno⟩
  · rw [submitPermitted_iff] at hp
    by_cases hv : viewAllowed u c.id c = true
    · simp only [hv, Bool.not_true, if_neg (by simp : ¬ (false = true))]
      rw [if_neg (by rw [submitPermitted_iff]; exact hp)]
      exact ⟨by simp [hp], fun _ => rfl⟩
    · simp only [Bool.not_eq_true] at hv
      simp only [hv, Bool.not_false, if_pos rfl]
      exact ⟨by simp [hp], fun _ => rfl⟩

/-- C3 witness: the never-joined student Cid cannot submit; the store is
unchanged. -/
theorem submit_permitted_iff_witness
    : (submit_assignment studentCid dbOne "cid1" 0 "done").1 = dbOne :=
  (submit_permitted_iff studentCid dbOne "cid1" roomAlgebra 0 "done"
    (by decide) (by decide)).2 (by decide)

/-- Shared characterization: a permitted, in-range submission succeeds and
appends exactly one submission record, carrying the session name, at the
end of the targeted assignment's submission list. -/
theorem submit_ok_char
    (u : Identity) (db : Store) (cid : String) (c : Classroom)
    (idx : Int) (t : String)
    (hc : store_get db cid = some c)
    (hperm : submitPermitted u cid c = true)
    (hidx : 0 ≤ idx ∧ idx < (c.assignments.length : Int)) :
    (submit_assignment u db cid idx t).2 = SubmitResult.ok
    ∧ ∃ c2, store_get (submit_assignment u db cid idx t).1 cid = some c2
        ∧ (c2.assignments[idx.toNat]?).map Assignment.submissions =
          (c.assignments[idx.toNat]?).map
            (fun a => a.submissions ++ [{ student := u.name, text := t }]) := by
  have hv := submitPermitted_viewAllowed u cid c hperm
  simp only [submit_assignment, hc, hv, Bool.not_true,
    if_neg (by simp : ¬ (false = true)), if_pos hperm, if_pos hidx]
  refine ⟨trivial, ?_⟩
  refine ⟨_, store_get_put db cid _, ?_⟩
  simp only [appendSubmissionAt_get, Option.map_map]
  cases c.assignments[idx.toNat]? <;> simp

/-- C5: a permitted submission with an in-range index appends the
submission to the targeted assignment; an out-of-range index (in
particular one past the last assignment) is rejected as invalid with the
store unchanged. -/
theorem submit_index_contract
    (u : Identity) (db : Store) (cid : String) (c : Classroom)
    (idx : Int) (t : String)
    (hc : store_get db cid = some c)
    (hperm : submitPermitted u cid c = true) :
    (0 ≤ idx ∧ idx < (c.assignments.length : Int) →
      (submit_assignment u db cid idx t).2 = SubmitResult.ok
      ∧ ∃ c2, store_get (submit_assignment u db cid idx t).1 cid = some c2
          ∧ (c2.assignments[idx.toNat]?).map Assignment.submissions =
            (c.assignments[idx.toNat]?).map
              (fun a => a.submissions ++ [{ student := u.name, text := t }]))
    ∧ (¬ (0 ≤ idx ∧ idx < (c.assignments.length : Int)) →
      (submit_assignment u db cid idx t).2 = SubmitResult.invalidIndex
      ∧ (submit_assignment u db cid idx t).1 = db) := by
  constructor
  · intro hidx
    exact submit_ok_char u db cid c idx t hc hperm hidx
  · intro hidx
    have hv := submitPermitted_viewAllowed u cid c hperm
    simp only [submit_assignment, hc, hv, Bool.not_true,
      if_neg (by simp : ¬ (false = true)), if_pos hperm, if_neg hidx]
    simp

/-- C5 witness: joined student Ben submits at index 0 of the one-assignment
classroom and the submission lands; index 1 (one past the last) is
rejected with the store unchanged. -/
theorem submit_index_contract_witness
    : ((submit_assignment benJoined dbOne "cid1" 1 "done").2 =
        SubmitResult.invalidIndex
      ∧ (submit_assignment benJoined dbOne "cid1" 1 "done").1 = dbOne) :=
  (submit_index_contract benJoined dbOne "cid1" roomAlgebra 1 "done"
    (by decide) (by decide)).2 (by decide)

/-- C6: an identity that is not the owning teacher never gets an
announcement posted: the attempt is denied and the store is returned
exactly as loaded. -/
theorem announce_nonowner_unchanged
    (u : Identity) (db : Store) (cid : String) (c : Classroom) (t : String)
    (hc : store_get db cid = some c)
    (hno : ¬ (u.role = some "Teacher" ∧ u.name = some c.teacher_name)) :
    (post_announcement u db cid t).1 = db
    ∧ (post_announcement u db cid t).2 ≠ AnnounceResult.ok := by
  have how : isOwningTeacher u c = false := by
    rw [← Bool.not_eq_true, isOwningTeacher_iff]
    exact hno
  by_cases hv : viewAllowed u cid c = true
  · simp only [post_announcement, hc, hv, Bool.not_true,
      if_neg (by simp : ¬ (false = true)), how,
      if_neg (by simp : ¬ (false = true))]
    simp
  · simp only [Bool.not_eq_true] at hv
    simp only [post_announcement, hc, hv, Bool.not_false, if_pos rfl]
    exact ⟨rfl, by simp⟩

/-- C6 witness: student Ben (after joining) is not the owner; his
announcement attempt leaves the store unchanged. -/
theorem announce_nonowner_unchanged_witness
    : (post_announcement benJoined dbOne "cid1" "hi").1 = dbOne
      ∧ (post_announcement benJoined dbOne "cid1" "hi").2 ≠ AnnounceResult.ok :=
  announce_nonowner_unchanged benJoined dbOne "cid1" roomAlgebra "hi"
    (by decide) (by decide)

/-- C4: the join scan returns exactly the first classroom, in store order,
that is private and whose stored code equals the submitted code by exact
string comparison; a match adds the classroom's id to the requester's
joined set, and no match leaves the session unchanged and reports failure. -/
theorem join_by_code_spec (u : Identity) (db : Store) (code : String) :
    findByCode db code =
      (db.map Prod.snd).find?
        (fun c => c.visibility == "Private" && c.code == code)
    ∧ (∀ c, findByCode db code = some c →
        (join_classroom u db code).2 = JoinResult.joined c
        ∧ c.id ∈ (join_classroom u db code).1.joined)
    ∧ (findByCode db code = none →
        join_classroom u db code = (u, JoinResult.notFound)) := by
  refine ⟨?_, ?_, ?_⟩
  · induction db with
    | nil => simp [findByCode]
    | cons kv rest ih =>
      obtain ⟨k, v⟩ := kv
      by_cases h : (v.visibility == "Private" && v.code == code) = true
      · simp [findByCode, h, List.find?_cons]
      · simp only [findByCode, List.map_cons, List.find?_cons, h, if_neg]
        simpa [h] using ih
  · intro c hfound
    by_cases hmem : c.id ∈ u.joined
    · simp [join_classroom, hfound, hmem]
    · simp [join_classroom, hfound, hmem]
  · intro hnone
    simp [join_classroom, hnone]

/-- C4 witness: the code `"123456"` resolves to the sample private
classroom and Ben's session gains its id. -/
theorem join_by_code_spec_witness
    : (join_classroom studentBen dbOne "123456").2 = JoinResult.joined roomAlgebra
      ∧ roomAlgebra.id ∈ (join_classroom studentBen dbOne "123456").1.joined :=
  (join_by_code_spec studentBen dbOne "123456").2.1 roomAlgebra (by decide)

/-- C8: joining twice with the same code from the same session yields the
same joined set as joining once; in particular its size is unchanged by
the second join. -/
theorem join_idempotent (u : Identity) (db : Store) (code : String) :
    (join_classroom (join_classroom u db code).1 db code).1.joined =
      (join_classroom u db code).1.joined
    ∧ (join_classroom (join_classroom u db code).1 db code).1.joined.length =
      (join_classroom u db code).1.joined.length := by
  have key : (join_classroom (join_classroom u db code).1 db code).1.joined =
      (join_classroom u db code).1.joined := by
    cases hfind : findByCode db code with
    | none => simp [join_classroom, hfind]
    | some c =>
      by_cases hmem : c.id ∈ u.joined
      · simp [join_classroom, hfind, hmem]
      · simp [join_classroom, hfind, hmem]
  exact ⟨key, by rw [key]⟩

/-- C7: the JSON projection carries the code exactly for the owning
teacher and preserves every other field of the classroom. -/
theorem info_code_iff_owner (u : Identity) (c : Classroom) :
    ((classroom_info u c).code.isSome = true ↔
      (u.role = some "Teacher" ∧ u.name = some c.teacher_name))
    ∧ ((u.role = some "Teacher" ∧ u.name = some c.teacher_name) →
        (classroom_info u c).code = some c.code)
    ∧ (¬ (u.role = some "Teacher" ∧ u.name = some c.teacher_name) →
        (classroom_info u c).code = none)
    ∧ (classroom_info u c).id = c.id
    ∧ (classroom_info u c).name = c.name
    ∧ (classroom_info u c).teacher_name = c.teacher_name
    ∧ (classroom_info u c).visibility = c.visibility
    ∧ (classroom_info u c).announcements = c.announcements
    ∧ (classroom_info u c).lessons = c.lessons
    ∧ (classroom_info u c).assignments = c.assignments := by
  by_cases how : isOwningTeacher u c = true
  · have hp := (isOwningTeacher_iff u c).mp how
    simp [classroom_info, how, hp]
  · have hp : ¬ (u.role = some "Teacher" ∧ u.name = some c.teacher_name) :=
      fun h => how ((isOwningTeacher_iff u c).mpr h)
    simp [classroom_info, how, hp]

/-- C7 witness: a non-owning student's projection of the sample private
classroom has no code entry. -/
theorem info_code_iff_owner_witness
    : (classroom_info studentBen roomAlgebra).code = none :=
  (info_code_iff_owner studentBen roomAlgebra).2.2.1 (by decide)

/-- C10: the join handler never reads the session's name or role — an
identity with both absent joins exactly as any identity with the same
joined set does — and a permitted submission from a session with an absent
name appends a submission whose student field is the absent name. -/
theorem join_ignores_name_role
    (u : Identity) (db : Store) (code : String)
    (db2 : Store) (cid : String) (c : Classroom) (idx : Int) (t : String)
    (j : List String)
    (hc : store_get db2 cid = some c)
    (hvis : c.visibility = "Private")
    (hj : cid ∈ j)
    (hidx : 0 ≤ idx ∧ idx < (c.assignments.length : Int)) :
    ((join_classroom u db code).1.joined =
      (join_classroom { name := none, role := none, joined := u.joined }
        db code).1.joined
      ∧ (join_classroom u db code).2 =
        (join_classroom { name := none, role := none, joined := u.joined }
          db code).2)
    ∧ ((submit_assignment { name := none, role := none, joined := j }
          db2 cid idx t).2 = SubmitResult.ok
      ∧ ∃ c2, store_get (submit_assignment
            { name := none, role := none, joined := j } db2 cid idx t).1 cid
          = some c2
          ∧ (c2.assignments[idx.toNat]?).map Assignment.submissions =
            (c.assignments[idx.toNat]?).map
              (fun a => a.submissions ++ [{ student := none, text := t }])) := by
  constructor
  · cases hfind : findByCode db code with
    | none => simp [join_classroom, hfind]
    | some cc =>
      by_cases hmem : cc.id ∈ u.joined
      · simp [join_classroom, hfind, hmem]
      · simp [join_classroom, hfind, hmem]
  · have hperm : submitPermitted { name := none, role := none, joined := j }
        cid c = true := by
      rw [submitPermitted_iff]
      exact ⟨hvis, Or.inl hj⟩
    exact submit_ok_char { name := none, role := none, joined := j }
      db2 cid c idx t hc hperm hidx

/-- C10 witness: the anonymous session that joined `cid1` submits at index
0 and the submission is recorded with an absent student name; and for a
concrete logged-in teacher session, joining behaves as for the anonymous
session with the same joined set. -/
theorem join_ignores_name_role_witness
    : (((join_classroom teacherAva dbOne "123456").1.joined =
        (join_classroom { name := none, role := none, joined := teacherAva.joined }
          dbOne "123456").1.joined)
      ∧ (join_classroom teacherAva dbOne "123456").2 =
        (join_classroom { name := none, role := none, joined := teacherAva.joined }
          dbOne "123456").2)
    ∧ ((submit_assignment anonJoined dbOne "cid1" 0 "done").2 = SubmitResult.ok
      ∧ ∃ c2, store_get (submit_assignment anonJoined dbOne "cid1" 0 "done").1
            "cid1" = some c2
          ∧ (c2.assignments[(0 : Int).toNat]?).map Assignment.submissions =
            (roomAlgebra.assignments[(0 : Int).toNat]?).map
              (fun a => a.submissions ++ [{ student := none, text := "done" }])) :=
  join_ignores_name_role teacherAva dbOne "123456" dbOne "cid1" roomAlgebra
    0 "done" ["cid1"] (by decide) (by decide) (by decide) (by decide)
